import Mathlib

/-!
Verification development for the endpoint-threat-detection system.

The repository contains two binaries plus shared libraries:
  * `sensor` (src/sensor): ETW-based collector with a 10-second detection
    loop over accumulated process/network events (`src/sensor/src/main.rs`),
    a catalog of pure detection rules (`src/sensor/src/rules.rs`) and a
    JSONL alert logger (`src/sensor/src/logger.rs`).
  * the correlation-engine binary (src/src): channel-driven correlation
    engine (`src/src/monitoring/correlation_engine.rs`) with a lifecycle
    coordinator (`src/src/main.rs`).
  * `shared` (src/shared/src/models.rs): the serde data model, and
    `cli` (src/cli/src/main.rs): the read-only reporting tool.

This file shallowly embeds the data model and the functions the claims
refer to.  Conventions used throughout:

  * Rust `u32`/`u16`/`usize` values that are only compared for equality or
    order are embedded as `Nat`; wall-clock instants (`chrono::DateTime`)
    are embedded as `Int` numbers of seconds, so `chrono::Duration::seconds n`
    is the integer `n` and `chrono::Duration::minutes 10` is `600`.
  * Rust `String` is embedded as Lean `String`; the Rust string helpers
    (`to_lowercase`, `contains`, `starts_with`, ...) are re-implemented
    below on `List Char` (all string constants in the program are ASCII,
    where Rust's Unicode-aware versions coincide with these).
  * The `regex` crate is external to the repository.  Functions that call
    `regex::Regex::new(pattern).is_match(text)` take the matcher as an
    explicit parameter `rm : String → String → Bool` (pattern, text).
    `literalPatternMatch` below is the regex semantics restricted to
    patterns that contain no regex metacharacters: such a pattern is a
    literal and `is_match` is substring search.
  * Effects (the clock, `std::fs::read_to_string`, channel sends) are made
    explicit: the current time is a parameter, the file system is a
    parameter `String → Option String`, and emitted alerts are returned as
    a list in send order.
-/

/-! ## ASCII string helpers (embedding of the Rust `str` methods used) -/

/-- Embedding of Rust `str::to_lowercase` (ASCII range; all constants in the
program are ASCII). -/
def strToLower (s : String) : String :=
  ⟨s.data.map Char.toLower⟩

/-- `needle` occurs as a contiguous sublist of `hay`. -/
def listIsInfixOf (needle hay : List Char) : Bool :=
  match hay with
  | [] => needle.isEmpty
  | _ :: t => needle.isPrefixOf hay || listIsInfixOf needle t

/-- Embedding of Rust `str::contains(&str)`: substring search. -/
def strContains (hay needle : String) : Bool :=
  listIsInfixOf needle.data hay.data

/-- Embedding of Rust `str::starts_with(&str)`. -/
def strStartsWith (s pre : String) : Bool :=
  pre.data.isPrefixOf s.data

/-- Embedding of Rust `str::ends_with(&str)`. -/
def strEndsWith (s suf : String) : Bool :=
  suf.data.isSuffixOf s.data

/-- Index (in characters = bytes, since everything is ASCII) of the first
occurrence of `needle` in `hay`: embedding of Rust `str::find(&str)`. -/
def listFindSubstrIdx (hay needle : List Char) : Option Nat :=
  match hay with
  | [] => if needle.isEmpty then some 0 else none
  | _ :: t =>
    if needle.isPrefixOf hay then some 0
    else (listFindSubstrIdx t needle).map (· + 1)

/-- Embedding of Rust `str::find(&str)` on strings. -/
def strFindSubstr (hay needle : String) : Option Nat :=
  listFindSubstrIdx hay.data needle.data

/-- The substring of `s` from character index `i` on: embedding of Rust
`&s[i..]` (ASCII, so byte index = char index). -/
def strDrop (s : String) (i : Nat) : String :=
  ⟨s.data.drop i⟩

/-- Embedding of Rust `str::trim` (ASCII whitespace). -/
def strTrim (s : String) : String :=
  ⟨((s.data.dropWhile Char.isWhitespace).reverse.dropWhile Char.isWhitespace).reverse⟩

/-- Embedding of Rust `str::trim_matches(c)`: strips all leading and trailing
occurrences of the character `c`. -/
def strTrimMatches (s : String) (c : Char) : String :=
  ⟨((s.data.dropWhile (· == c)).reverse.dropWhile (· == c)).reverse⟩

/-- Embedding of Rust `str::split_whitespace().next()`: the first maximal run
of non-whitespace characters, if any. -/
def strFirstWhitespaceToken (s : String) : Option String :=
  let t := (s.data.dropWhile Char.isWhitespace).takeWhile (fun c => !c.isWhitespace)
  if t.isEmpty then none else some ⟨t⟩

/-- Embedding of Rust `str::replace('/', "\\")`. -/
def strReplaceSlashes (s : String) : String :=
  ⟨s.data.map (fun c => if c == '/' then '\\' else c)⟩

/-- Regex matching (external `regex` crate) restricted to patterns without
metacharacters: a metacharacter-free pattern is a literal, and
`Regex::new(pat).is_match(text)` is then exactly substring search. -/
def literalPatternMatch (pattern text : String) : Bool :=
  strContains text pattern

/-! ## Shared data model (`src/shared/src/models.rs`) -/

/-- `shared::ProcessEvent` (src/shared/src/models.rs). -/
structure ProcessEvent where
  timestamp : String
  pid : Nat
  parent_pid : Nat
  image : String
  parent_image : String
  command_line : String
  is_signed : Bool
  deriving DecidableEq, Repr

/-- `shared::NetworkEvent` (src/shared/src/models.rs). -/
structure NetworkEvent where
  timestamp : String
  pid : Nat
  protocol : String
  local_addr : String
  remote_addr : String
  remote_port : Nat
  deriving DecidableEq, Repr

/-- `shared::Alert` (src/shared/src/models.rs): the persisted alert record. -/
structure Alert where
  time : String
  severity : String
  rule : String
  process : String
  parent : String
  command_line : Option String
  details : Option String
  deriving DecidableEq, Repr

/-- `shared::Alert::new` (src/shared/src/models.rs).  The Rust constructor
fills `time` from `chrono::Local::now().to_rfc3339()`; the clock is embedded
as the explicit first parameter. -/
def Alert.new (time severity rule process parent : String) : Alert :=
  { time := time
    severity := severity
    rule := rule
    process := process
    parent := parent
    command_line := none
    details := none }

/-! ## Sensor detection rules (`src/sensor/src/rules.rs`) -/

/-- The `suspicious_patterns` list in `detect_suspicious_cmdline`. -/
def suspicious_patterns : List String :=
  ["iex", "invoke-expression", "downloadstring", "downloadfile",
   "-encodedcommand", "-enc ", "bypass", "invoke-webrequest",
   "certutil -decode", "certutil -urlcache", "bitsadmin /transfer",
   "regsvr32 /s /u /i:", "mshta http", "rundll32 javascript:"]

/-- The `high_confidence` list in `detect_suspicious_cmdline`. -/
def high_confidence : List String :=
  ["-encodedcommand", "-enc ", "downloadstring", "downloadfile",
   "certutil -decode", "certutil -urlcache", "bitsadmin /transfer"]

/-- The `for pattern in &suspicious_patterns` loop body of
`detect_suspicious_cmdline`: first matching pattern wins unless the process
is signed and the command line contains no high-confidence pattern, in which
case the loop `continue`s. -/
def detectSuspiciousCmdlineLoop (time : String) (event : ProcessEvent)
    (cmdline_lower : String) : List String → Option Alert
  | [] => none
  | pattern :: rest =>
    if strContains cmdline_lower pattern then
      let is_high := high_confidence.any (fun h => strContains cmdline_lower h)
      if event.is_signed && !is_high then
        detectSuspiciousCmdlineLoop time event cmdline_lower rest
      else
        some { Alert.new time "HIGH" "Suspicious command line detected"
                 event.image event.parent_image with
               command_line := some event.command_line
               details := some ("Detected suspicious pattern: " ++ pattern) }
    else detectSuspiciousCmdlineLoop time event cmdline_lower rest

/-- `rules::detect_suspicious_cmdline` (src/sensor/src/rules.rs, lines
198-245). -/
def detect_suspicious_cmdline (time : String) (event : ProcessEvent) :
    Option Alert :=
  detectSuspiciousCmdlineLoop time event (strToLower event.command_line)
    suspicious_patterns

/-- The `suspicious_locations` list in `detect_possible_keylogger`. -/
def keylogger_suspicious_locations : List String :=
  ["\\temp\\", "\\appdata\\local\\temp\\", "\\downloads\\", "\\public\\",
   "\\users\\public\\"]

/-- `rules::detect_possible_keylogger` (src/sensor/src/rules.rs, lines
161-195). -/
def detect_possible_keylogger (time : String) (proc : ProcessEvent)
    (net : NetworkEvent) : Option Alert :=
  if net.pid ≠ proc.pid then none
  else
    let image_lower := strToLower proc.image
    let is_suspicious_location :=
      keylogger_suspicious_locations.any (fun loc => strContains image_lower loc)
    if is_suspicious_location && !proc.is_signed then
      some { Alert.new time "HIGH"
               "Possible keylogger - unsigned process from suspicious location"
               proc.image proc.parent_image with
             details := some
               ("Process from suspicious directory with network activity. Remote: "
                 ++ net.remote_addr ++ ":" ++ toString net.remote_port) }
    else none

/-- The `whitelist` in `detect_unsigned_network`. -/
def unsigned_network_whitelist : List String :=
  ["chrome.exe", "firefox.exe", "msedge.exe", "msedgewebview2.exe",
   "iexplore.exe", "teams.exe", "slack.exe", "discord.exe", "zoom.exe",
   "skype.exe", "onedrive.exe", "outlook.exe", "svchost.exe",
   "backgroundtaskhost.exe", "runtimebroker.exe", "searchprotocolhost.exe",
   "systemsettings.exe", "code.exe", "devenv.exe", "rider.exe", "idea.exe",
   "explorer.exe", "dwm.exe", "csrss.exe", "lsass.exe", "services.exe",
   "audiodg.exe", "conhost.exe", "taskhostw.exe", "spoolsv.exe",
   "applicationframehost.exe", "xaml.exe", "smartscreen.exe", "steam.exe",
   "epic games launcher.exe", "spotify.exe", "dropbox.exe"]

/-- The `suspicious_dirs` list in `detect_unsigned_network`. -/
def unsigned_network_suspicious_dirs : List String :=
  ["\\windows\\temp\\", "\\windows\\tasks\\", "\\windows\\debug\\",
   "\\users\\public\\"]

/-- The `NET_COUNT` per-pid counter map: `counts.entry(pid).or_insert(0)`
followed by `*count += 1`; returns the updated map and the new count. -/
def netCountBump (counts : List (Nat × Nat)) (pid : Nat) :
    List (Nat × Nat) × Nat :=
  match counts.find? (fun e => e.1 == pid) with
  | some e =>
    (counts.map (fun x => if x.1 == pid then (x.1, x.2 + 1) else x), e.2 + 1)
  | none => ((pid, 1) :: counts, 1)

/-- `counts.remove(&pid)` on the `NET_COUNT` map. -/
def netCountRemove (counts : List (Nat × Nat)) (pid : Nat) :
    List (Nat × Nat) :=
  counts.filter (fun e => e.1 != pid)

/-- `rules::detect_unsigned_network` (src/sensor/src/rules.rs, lines 47-158).
The `NET_COUNT` global is passed in and returned explicitly; the clock
(`Utc::now()`, in seconds) and `chrono`'s RFC3339 parser (external crate,
yielding the parsed instant in seconds) are parameters. -/
def detect_unsigned_network (time : String) (now : Int)
    (parseTs : String → Option Int) (counts : List (Nat × Nat))
    (proc : ProcessEvent) (net : NetworkEvent) :
    List (Nat × Nat) × Option Alert :=
  if net.pid ≠ proc.pid then (counts, none)
  else if proc.is_signed then (counts, none)
  else if proc.pid ≤ 10 then (counts, none)
  else if net.remote_addr = "127.0.0.1" ∨ net.remote_addr = "[::1]" then
    (counts, none)
  else
    match parseTs proc.timestamp with
    | none => (counts, none)
    | some start_time =>
      let age := now - start_time
      if age > 120 then (counts, none)
      else
        let bumped := netCountBump counts proc.pid
        if bumped.2 < 3 then (bumped.1, none)
        else
          let image_lower := strToLower proc.image
          if unsigned_network_whitelist.any (fun allowed =>
               strEndsWith image_lower allowed || strContains image_lower allowed)
          then (bumped.1, none)
          else if !(unsigned_network_suspicious_dirs.any (fun d =>
                      strContains image_lower d))
          then (bumped.1, none)
          else
            (netCountRemove bumped.1 proc.pid,
             some { Alert.new time "LOW"
                      "Suspicious unsigned process with network activity"
                      proc.image proc.parent_image with
                    details := some
                      ("Unsigned process made repeated external connections to "
                        ++ net.remote_addr ++ ":" ++ toString net.remote_port) })

/-- The keylogger/exfil indicator list scanned in the non-system-drive branch
of `detect_powershell_hidden_from_removable`. -/
def hidden_script_indicators_drive : List String :=
  ["getasynckeystate", "add-type", "invoke-webrequest",
   "discord.com/api/webhooks", "send-todiscord", "get-content",
   "start-keylogger"]

/-- The indicator list scanned in the suspicious-path-fragment branch of
`detect_powershell_hidden_from_removable`. -/
def hidden_script_indicators_fragment : List String :=
  ["getasynckeystate", "add-type", "invoke-webrequest",
   "discord.com/api/webhooks", "send-todiscord"]

/-- The `suspicious_fragments` list in
`detect_powershell_hidden_from_removable`. -/
def hidden_script_suspicious_fragments : List String :=
  ["circuitpy", "removable", "usb", "temp", "appdata", "downloads", "public"]

/-- The `-file` path-token extraction in
`detect_powershell_hidden_from_removable`: `cmd.find("-file")`, the substring
after it, `split_whitespace().next()`, `trim`, `trim_matches('"')`,
`trim_matches('\'')`, and stripping one leading backtick. -/
def extractFileToken (cmd : String) : Option String :=
  match strFindSubstr cmd "-file" with
  | none => none
  | some idx =>
    match strFirstWhitespaceToken (strDrop cmd (idx + 5)) with
    | none => none
    | some path_token =>
      let p0 := strTrimMatches (strTrimMatches (strTrim path_token) '"')
        (Char.ofNat 39)
      if p0.data.head? == some (Char.ofNat 96) then some (strDrop p0 1)
      else some p0

/-- The drive-letter test of `detect_powershell_hidden_from_removable`:
`p_lower` has length ≥ 2, its second character is `:`, its first character is
an ASCII letter, and that letter lowercased is not `c`. -/
def driveLetterNonC (p_lower : String) : Bool :=
  match p_lower.data with
  | c0 :: c1 :: _ => c1 == ':' && c0.isAlpha && c0.toLower != 'c'
  | _ => false

/-- The alert built by the non-system-drive branch of
`detect_powershell_hidden_from_removable`, including the
`fs::read_to_string` scan of the script (`readFile` embeds the file system:
`some` = `Ok(content)`, `none` = any read error). -/
def hiddenDriveAlert (readFile : String → Option String) (time : String)
    (event : ProcessEvent) (p : String) (drive : Char) : Alert :=
  let base := { Alert.new time "HIGH"
                  "PowerShell executed hidden from non-system drive"
                  event.image event.parent_image with
                command_line := some event.command_line }
  match readFile (strReplaceSlashes p) with
  | some content =>
    let content_lower := strToLower content
    match hidden_script_indicators_drive.find?
        (fun ind => strContains content_lower ind) with
    | some ind =>
      { base with details := some ("Script " ++ p ++ " contains indicator: " ++ ind) }
    | none =>
      { base with details := some ("Hidden PowerShell -File from drive "
          ++ drive.toString ++ " detected: " ++ p
          ++ " (script scanned, no explicit indicator found)") }
  | none =>
    { base with details := some ("Hidden PowerShell -File from drive "
        ++ drive.toString ++ " detected: " ++ p ++ " (script unreadable)") }

/-- The suspicious-path-fragment branch of
`detect_powershell_hidden_from_removable` (reached when the drive-letter
branch did not return). -/
def hiddenFragmentCheck (readFile : String → Option String) (time : String)
    (event : ProcessEvent) (p p_lower : String) : Option Alert :=
  if hidden_script_suspicious_fragments.any (fun frag => strContains p_lower frag)
  then
    let base := { Alert.new time "HIGH"
                    "PowerShell executed hidden from suspicious path"
                    event.image event.parent_image with
                  command_line := some event.command_line }
    some (match readFile (strReplaceSlashes p) with
    | some content =>
      let content_lower := strToLower content
      match hidden_script_indicators_fragment.find?
          (fun ind => strContains content_lower ind) with
      | some ind =>
        { base with details := some ("Script " ++ p ++ " contains indicator: " ++ ind) }
      | none =>
        { base with details := some ("Hidden PowerShell -File from suspicious path detected: "
            ++ p ++ " (script scanned, no explicit indicator found)") }
    | none =>
      { base with details := some ("Hidden PowerShell -File from suspicious path detected: "
          ++ p ++ " (script unreadable)") })
  else none

/-- `rules::detect_powershell_hidden_from_removable`
(src/sensor/src/rules.rs, lines 301-405).  `fs::read_to_string` is embedded
as the parameter `readFile` (`none` = the `Err` case); the rule itself is a
total function, so a read failure can never propagate out of it. -/
def detect_powershell_hidden_from_removable (readFile : String → Option String)
    (time : String) (event : ProcessEvent) : Option Alert :=
  let image_lower := strToLower event.image
  let cmd := strToLower event.command_line
  if !(strEndsWith image_lower "powershell.exe"
        || strEndsWith image_lower "pwsh.exe") then none
  else if !(strContains cmd "-windowstyle hidden") then none
  else
    match extractFileToken cmd with
    | none => none
    | some p =>
      let p_lower := strToLower p
      if driveLetterNonC p_lower then
        match p_lower.data with
        | c0 :: _ => some (hiddenDriveAlert readFile time event p c0.toLower)
        | [] => hiddenFragmentCheck readFile time event p p_lower
      else hiddenFragmentCheck readFile time event p p_lower

/-- `rules::detect_powershell_network_exfil` (src/sensor/src/rules.rs, lines
409-440). -/
def detect_powershell_network_exfil (time : String) (proc : ProcessEvent)
    (net : NetworkEvent) : Option Alert :=
  let image_lower := strToLower proc.image
  let cmd := strToLower proc.command_line
  if !(strEndsWith image_lower "powershell.exe"
        || strEndsWith image_lower "pwsh.exe") then none
  else if net.remote_addr = "127.0.0.1" ∨ net.remote_addr = "[::1]"
          ∨ net.remote_addr = "localhost" then none
  else
    let looks_like_script := strContains cmd "-file"
      || strContains cmd "-encodedcommand" || strContains cmd "-enc "
    let explicit_exfil := strContains cmd "invoke-webrequest"
      || strContains cmd "discord.com/api/webhooks"
      || strContains cmd "send-todiscord"
    if !(looks_like_script || explicit_exfil || !proc.is_signed) then none
    else
      some { Alert.new time "HIGH" "PowerShell network exfiltration suspicion"
               proc.image proc.parent_image with
             command_line := some proc.command_line
             details := some ("PowerShell PID " ++ toString proc.pid
               ++ " connected to " ++ net.remote_addr ++ ":"
               ++ toString net.remote_port ++ " shortly after script launch") }

/-! ## Sensor alert sink (`src/sensor/src/main.rs`, detection-engine thread)

Every call site in the detection loop persists a rule's alert through the
same guard:

    let key = (proc.pid, alert.rule.clone());
    if alerted.insert(key) { logger::log_alert(&alert); }

The loop re-evaluates all rules over the accumulated events every 10
seconds, so the same `(pid, rule)` candidate recurs indefinitely; the
`alerted : HashSet<(u32, String)>` set is what bounds persistence.  The sink
is embedded as a fold over the stream of candidate `(pid, alert)` pairs the
rules produce, in program order. -/

/-- Sink state: the `alerted` dedup set (as a list of `(pid, rule)` keys)
and the persisted alert log, each entry tagged with the `proc.pid` it was
keyed by. -/
structure SinkState where
  alerted : List (Nat × String)
  log : List (Nat × Alert)
  deriving Repr

/-- One `if alerted.insert(key) { log_alert(&alert) }` guard. -/
def sinkStep (st : SinkState) (cand : Nat × Alert) : SinkState :=
  let key := (cand.1, cand.2.rule)
  if key ∈ st.alerted then st
  else { alerted := key :: st.alerted, log := st.log ++ [cand] }

/-- The detection-engine thread's persistence behavior over a whole run:
fold of the dedup guard over every candidate alert, starting from the empty
dedup set and empty log. -/
def run_alert_sink (cands : List (Nat × Alert)) : SinkState :=
  cands.foldl sinkStep ⟨[], []⟩

/-- Number of persisted log entries for a given `(pid, rule)` dedup key. -/
def logCountKey (log : List (Nat × Alert)) (pid : Nat) (rule : String) : Nat :=
  (log.filter (fun e => e.1 == pid && e.2.rule == rule)).length

/-! ## Correlation-engine binary (src/src)

The second binary's types and functions are embedded in the `Engine`
namespace (its Rust module tree is `crate::events`, `crate::config::rules`,
`crate::monitoring::correlation_engine`). -/

namespace Engine

/-- `config::rules::AlertThresholds` (src/src/config/rules.rs). -/
structure AlertThresholds where
  max_connections_per_minute : Nat
  max_processes_per_minute : Nat
  suspicious_port_range : Nat × Nat
  deriving Repr

/-- `config::rules::Condition` (src/src/config/rules.rs). -/
structure Condition where
  field : String
  operator : String
  value : String
  deriving Repr

/-- `config::rules::CorrelationRule` (src/src/config/rules.rs). -/
structure CorrelationRule where
  name : String
  description : String
  severity : String
  conditions : List Condition
  deriving Repr

/-- `config::rules::Config` (src/src/config/rules.rs). -/
structure Config where
  suspicious_process_patterns : List String
  suspicious_network_patterns : List String
  alert_thresholds : AlertThresholds
  correlation_rules : List CorrelationRule
  deriving Repr

/-- `events::alert::AlertSeverity` (src/src/events/alert.rs). -/
inductive AlertSeverity where
  | low
  | medium
  | high
  | critical
  deriving DecidableEq, Repr

/-- `events::alert::Alert` (src/src/events/alert.rs). -/
structure Alert where
  severity : AlertSeverity
  rule_name : String
  description : String
  process_name : String
  pid : Nat
  evidence : List String
  timestamp : Int
  deriving DecidableEq, Repr

/-- `events::alert::Alert::new`; the Rust constructor stamps
`chrono::Utc::now()`, embedded as the explicit `now` parameter. -/
def Alert.new (now : Int) (severity : AlertSeverity) (rule_name description
    process_name : String) (pid : Nat) (evidence : List String) : Alert :=
  { severity := severity
    rule_name := rule_name
    description := description
    process_name := process_name
    pid := pid
    evidence := evidence
    timestamp := now }

/-- `events::process::ProcessEvent` (src/src/events/process.rs).  The
`FILETIME` create/exit stamps are opaque to the engine and embedded as
optional integers. -/
structure ProcessEvent where
  pid : Nat
  parent_pid : Nat
  process_name : String
  image_path : String
  command_line : String
  session_id : Nat
  integrity_level : String
  create_time : Option Int
  exit_time : Option Int
  exit_code : Option Nat
  deriving Repr

/-- `events::network::NetworkDirection` (src/src/events/network.rs). -/
inductive NetworkDirection where
  | inbound
  | outbound
  | listening
  deriving DecidableEq, Repr

/-- `events::network::Protocol` (src/src/events/network.rs). -/
inductive Protocol where
  | tcp
  | udp
  | other (s : String)
  deriving DecidableEq, Repr

/-- `events::network::ConnectionState` (src/src/events/network.rs). -/
inductive ConnectionState where
  | established
  | listening
  | closed
  | timeWait
  | other (s : String)
  deriving DecidableEq, Repr

/-- `events::network::NetworkEvent` (src/src/events/network.rs). -/
structure NetworkEvent where
  pid : Nat
  process_name : String
  direction : NetworkDirection
  protocol : Protocol
  local_address : String
  local_port : Nat
  remote_address : String
  remote_port : Nat
  bytes_sent : Nat
  bytes_received : Nat
  connection_state : ConnectionState
  deriving Repr

/-- `events::EventType` (src/src/events/mod.rs). -/
inductive EventType where
  | processStart (e : ProcessEvent)
  | processEnd (e : ProcessEvent)
  | networkConnection (e : NetworkEvent)
  | alert (a : Alert)
  deriving Repr

/-- `events::BaseEvent` (src/src/events/mod.rs). -/
structure BaseEvent where
  timestamp : Int
  event_id : String
  machine_name : String
  user_name : String
  event_type : EventType
  deriving Repr

/-- `correlation_engine::ProcessContext`
(src/src/monitoring/correlation_engine.rs, lines 23-29). -/
structure ProcessContext where
  start_time : Int
  process_name : String
  pid : Nat
  network_connections : List Int
  suspicious_activities : List String
  deriving DecidableEq, Repr

/-- The engine's `HashMap<u32, ProcessContext>` is embedded as an
association list with at most one entry per key (the engine only builds it
through `ctxInsert`/`ctxRemove`, which preserve that). -/
abbrev CtxMap := List (Nat × ProcessContext)

/-- `HashMap::insert` (replaces any existing entry for the key). -/
def ctxInsert (m : CtxMap) (k : Nat) (v : ProcessContext) : CtxMap :=
  (k, v) :: m.filter (fun e => e.1 != k)

/-- `HashMap::remove`. -/
def ctxRemove (m : CtxMap) (k : Nat) : CtxMap :=
  m.filter (fun e => e.1 != k)

/-- `HashMap::get` / `get_mut` lookup. -/
def ctxFind (m : CtxMap) (k : Nat) : Option ProcessContext :=
  (m.find? (fun e => e.1 == k)).map (fun e => e.2)

/-- The `system_processes` skip-list in `is_suspicious_process`. -/
def system_processes : List String :=
  ["svchost.exe", "system", "system idle process", "csrss.exe",
   "wininit.exe", "services.exe", "lsass.exe", "winlogon.exe",
   "explorer.exe", "dwm.exe", "taskhostw.exe", "runtimebroker.exe"]

/-- The `suspicious_names` list in `is_suspicious_process`. -/
def suspicious_names : List String :=
  ["powershell.exe", "cmd.exe", "wscript.exe", "cscript.exe", "mshta.exe",
   "rundll32.exe", "regsvr32.exe", "certutil.exe"]

/-- `correlation_engine::is_suspicious_process`
(src/src/monitoring/correlation_engine.rs, lines 174-207).  The regex
matcher from the external `regex` crate is the parameter `rm`. -/
def is_suspicious_process (rm : String → String → Bool)
    (process_name : String) (config : Config) : Bool :=
  let lower_name := strToLower process_name
  if system_processes.any (fun p => strContains lower_name p) then false
  else
    let name_lower := strToLower process_name
    suspicious_names.any (fun nm => strContains name_lower nm)
      || config.suspicious_process_patterns.any (fun pat => rm pat name_lower)

/-- The hard-coded `suspicious_domains` list in
`is_suspicious_destination`. -/
def suspicious_domains : List String :=
  ["malicious.com", "evil-domain.net"]

/-- `correlation_engine::is_suspicious_destination`
(src/src/monitoring/correlation_engine.rs, lines 209-230).  Note the
private-address early return covers only the `192.168.`, `10.`, `127.`
prefixes and the exact string `::1`. -/
def is_suspicious_destination (rm : String → String → Bool)
    (address : String) (config : Config) : Bool :=
  if strStartsWith address "192.168." || strStartsWith address "10."
      || strStartsWith address "127." || address == "::1" then false
  else
    suspicious_domains.any (fun domain => strContains address domain)
      || config.suspicious_network_patterns.any (fun pat => rm pat address)

/-- `correlation_engine::process_event`
(src/src/monitoring/correlation_engine.rs, lines 61-159).  The clock
(`chrono::Utc::now()`, called while servicing the event) is the `now`
parameter; alerts sent on `alert_tx` are returned as a list in send order.
Returns the updated context map and the emitted alerts. -/
def process_event (rm : String → String → Bool) (config : Config) (now : Int)
    (event : BaseEvent) (process_contexts : CtxMap) : CtxMap × List Alert :=
  match event.event_type with
  | .processStart pe =>
    let alerts :=
      if is_suspicious_process rm pe.process_name config then
        [Alert.new now .high "SuspiciousProcessStart"
          ("Suspicious process started: " ++ pe.process_name)
          pe.process_name pe.pid ["Process: " ++ pe.process_name]]
      else []
    (ctxInsert process_contexts pe.pid
      { start_time := now
        process_name := pe.process_name
        pid := pe.pid
        network_connections := []
        suspicious_activities := [] }, alerts)
  | .processEnd pe => (ctxRemove process_contexts pe.pid, [])
  | .networkConnection ne =>
    match ctxFind process_contexts ne.pid with
    | none => (process_contexts, [])
    | some context =>
      let context := { context with
        network_connections := context.network_connections ++ [now] }
      let rapid_alerts :=
        if context.network_connections.length > 5 then
          let recent_connections := (context.network_connections.filter
            (fun time => decide (time > now - 10))).length
          if recent_connections > 5 then
            [Alert.new now .medium "RapidNetworkConnections"
              "Rapid network connections detected" context.process_name
              context.pid
              [toString recent_connections ++ " connections in 10 seconds"]]
          else []
        else []
      let dest_alerts :=
        if is_suspicious_destination rm ne.remote_address config then
          [Alert.new now .high "SuspiciousNetworkConnection"
            ("Connection to suspicious destination: " ++ ne.remote_address)
            context.process_name context.pid
            ["Destination: " ++ ne.remote_address,
             "Port: " ++ toString ne.remote_port]]
        else []
      let process_age := now - context.start_time
      let newproc_alerts :=
        if process_age < 5 ∧ context.network_connections ≠ [] then
          [Alert.new now .medium "NewProcessNetworkActivity"
            "New process making network connections" context.process_name
            context.pid
            ["Process age: " ++ toString process_age ++ " seconds",
             "Connections made: " ++ toString context.network_connections.length]]
        else []
      (ctxInsert process_contexts ne.pid context,
       rapid_alerts ++ dest_alerts ++ newproc_alerts)
  | .alert _ => (process_contexts, [])

/-- `correlation_engine::cleanup_old_contexts`
(src/src/monitoring/correlation_engine.rs, lines 161-172): collect the pids
whose `now - start_time > 10 minutes` (600 s) and remove each of them,
regardless of connection activity. -/
def cleanup_old_contexts (now : Int) (process_contexts : CtxMap) : CtxMap :=
  let old_pids := (process_contexts.filter
    (fun e => decide (now - e.2.start_time > 600))).map (fun e => e.1)
  old_pids.foldl (fun m pid => ctxRemove m pid) process_contexts

/-- One iteration of the `run_correlation_engine` select loop
(src/src/monitoring/correlation_engine.rs, lines 40-58): either an event is
received from the process or network channel and serviced by
`process_event`, or the 100 ms timeout branch fires and runs the
maintenance sweep.  `now` is the wall clock when the branch is serviced. -/
inductive EngineStep where
  | deliver (now : Int) (event : BaseEvent)
  | tick (now : Int)

/-- Service one select-loop branch. -/
def engine_step (rm : String → String → Bool) (config : Config)
    (s : EngineStep) (m : CtxMap) : CtxMap × List Alert :=
  match s with
  | .deliver now event => process_event rm config now event m
  | .tick now => (cleanup_old_contexts now m, [])

/-- A whole engine run over a sequence of select-loop branches, collecting
every alert sent on `alert_tx` in order. -/
def run_engine (rm : String → String → Bool) (config : Config) :
    List EngineStep → CtxMap → CtxMap × List Alert
  | [], m => (m, [])
  | s :: ss, m =>
    let r := engine_step rm config s m
    let rest := run_engine rm config ss r.1
    (rest.1, r.2 ++ rest.2)

/-- The three stateful network rules of the engine (the rules that can only
fire from the `NetworkConnection` arm of `process_event`). -/
def stateful_network_rules : List String :=
  ["RapidNetworkConnections", "SuspiciousNetworkConnection",
   "NewProcessNetworkActivity"]

/-- `true` iff this select-loop branch delivers a network-connection event
for pid `p`. -/
def stepHasNetPid (s : EngineStep) (p : Nat) : Bool :=
  match s with
  | .deliver _ e =>
    match e.event_type with
    | .networkConnection ne => ne.pid == p
    | _ => false
  | .tick _ => false

end Engine

/-! ## Lifecycle coordinator shutdown (src/src/main.rs) -/

/-- The three-way join classification of `perform_shutdown`
(src/src/main.rs, lines 229-233): `Ok(())`, `Err(JoinError::Timeout)`,
`Err(JoinError::Panic(_))`. -/
inductive JoinOutcome where
  | stopped
  | timedOut
  | panicked
  deriving DecidableEq, Repr

/-- A component thread, for the purposes of joining: whether it has finished
at the i-th 100 ms poll, and whether its `join()` reports a panic. -/
structure ThreadModel where
  isFinished : Nat → Bool
  panicked : Bool

/-- The polling loop of `join_with_timeout` (src/src/main.rs, lines
250-264): while the elapsed time is below the timeout, check
`handle.is_finished()` and sleep 100 ms; classify the outcome.  `polls` is
the number of poll iterations the 5 s window allows; the recursion is
structural in `polls`, so the join always terminates within the bounded
window. -/
def joinWithTimeoutLoop (t : ThreadModel) : Nat → Nat → JoinOutcome
  | 0, _ => .timedOut
  | polls + 1, i =>
    if t.isFinished i then (if t.panicked then .panicked else .stopped)
    else joinWithTimeoutLoop t polls (i + 1)

/-- `main::join_with_timeout` (src/src/main.rs, lines 250-264). -/
def join_with_timeout (t : ThreadModel) (polls : Nat) : JoinOutcome :=
  joinWithTimeoutLoop t polls 0

/-- The bounded join timeout passed to every `join_with_timeout` call:
`Duration::from_secs(5)` (src/src/main.rs, line 229). -/
def shutdown_join_timeout_secs : Nat := 5

/-- The `components` vector of `perform_shutdown` (src/src/main.rs, lines
220-225), in its literal order. -/
def shutdown_components : List String :=
  ["Network Monitor", "Correlation Engine", "Process Monitor",
   "Alert Handler"]

/-- The two event-producer threads: the network monitor feeds `network_tx`
and the process monitor feeds `process_tx` (src/src/main.rs, lines 68-77);
both channels are consumed by the correlation engine. -/
def producer_components : List String :=
  ["Network Monitor", "Process Monitor"]

/-- The consumer of both event channels: the correlation engine
(src/src/main.rs, lines 59-65). -/
def consumer_component : String := "Correlation Engine"

/-- The join loop of `perform_shutdown` (src/src/main.rs, lines 227-234):
each component in `shutdown_components` is joined in order; every outcome
(`Ok`, `Timeout`, `Panic`) is logged and the loop moves on to the next
component. -/
def perform_shutdown_joins (threads : String → ThreadModel) (polls : Nat) :
    List (String × JoinOutcome) :=
  shutdown_components.map
    (fun name => (name, join_with_timeout (threads name) polls))

/-! ## JSON serialization of alerts
(`src/sensor/src/logger.rs` / `src/cli/src/main.rs`)

`write_json_line` appends `serde_json::to_string(alert)` as one line;
`show_alerts` parses each line with `serde_json::from_str::<Alert>`.  The
derived serde impls are embedded at the JSON-value level: serialization
emits an object with the `Alert` fields in declaration order, `Option`
fields as `null` when `None`; deserialization looks fields up by name and
maps `null`/absent optional fields to `None`.  (The text layer -
`serde_json`'s printing and parsing of a JSON value - belongs to the
external crate.) -/

/-- JSON values. -/
inductive Json where
  | null
  | bool (b : Bool)
  | num (n : Int)
  | str (s : String)
  | arr (elems : List Json)
  | obj (fields : List (String × Json))

/-- Field lookup in a JSON object, by name. -/
def jsonLookup (fields : List (String × Json)) (k : String) : Option Json :=
  (fields.find? (fun f => f.1 == k)).map (fun f => f.2)

/-- Derived `Serialize` for `shared::Alert`: one JSON object, fields in
declaration order, `Option<String>` as string-or-null. -/
def alertToJson (a : Alert) : Json :=
  .obj [("time", .str a.time), ("severity", .str a.severity),
        ("rule", .str a.rule), ("process", .str a.process),
        ("parent", .str a.parent),
        ("command_line", match a.command_line with
          | some s => .str s
          | none => .null),
        ("details", match a.details with
          | some s => .str s
          | none => .null)]

/-- A required string field. -/
def jsonAsString : Option Json → Option String
  | some (.str s) => some s
  | _ => none

/-- An `Option<String>` field: absent or `null` deserializes to `None`. -/
def jsonAsOptString : Option Json → Option (Option String)
  | none => some none
  | some .null => some none
  | some (.str s) => some (some s)
  | some _ => none

/-- Derived `Deserialize` for `shared::Alert`: field lookup by name;
any missing required field or wrongly-typed field fails. -/
def alertFromJson : Json → Option Alert
  | .obj fields => do
    let time ← jsonAsString (jsonLookup fields "time")
    let severity ← jsonAsString (jsonLookup fields "severity")
    let rule ← jsonAsString (jsonLookup fields "rule")
    let process ← jsonAsString (jsonLookup fields "process")
    let parent ← jsonAsString (jsonLookup fields "parent")
    let command_line ← jsonAsOptString (jsonLookup fields "command_line")
    let details ← jsonAsOptString (jsonLookup fields "details")
    pure { time := time, severity := severity, rule := rule,
           process := process, parent := parent,
           command_line := command_line, details := details }
  | _ => none

/-! ## Auxiliary specification predicates and concrete instances -/

namespace Engine

/-- Number of emitted alerts carrying a given rule name. -/
def countAlertsWithRule (alerts : List Alert) (r : String) : Nat :=
  (alerts.filter (fun a => a.rule_name == r)).length

/-- The context map binds each context under its own pid (true of every map
the engine ever builds). -/
def KeyPid (m : CtxMap) : Prop :=
  ∀ e ∈ m, (e : Nat × ProcessContext).2.pid = e.1

/-- The context map has at most one entry per pid (`HashMap` semantics;
true of every map the engine ever builds). -/
def NodupKeys (m : CtxMap) : Prop :=
  (m.map Prod.fst).Nodup

end Engine

/-- A regex matcher under which no pattern matches (e.g. the behavior of
`regex` on a pattern like `$a` that matches nothing); used to instantiate
engine runs whose configured pattern lists are empty anyway. -/
def rmNone : String → String → Bool := fun _ _ => false

/-- An `AlertThresholds` value (the engine never reads it). -/
def exThresholds : Engine.AlertThresholds := ⟨100, 50, (49152, 65535)⟩

/-- A configuration with no suspicious patterns at all. -/
def emptyPatternsConfig : Engine.Config := ⟨[], [], exThresholds, []⟩

/-- A configuration whose network blocklist holds the single literal
pattern `172` (no regex metacharacters). -/
def pattern172Config : Engine.Config := ⟨[], ["172"], exThresholds, []⟩

/-- A configuration whose network blocklist holds the single literal
pattern `192` (no regex metacharacters); it matches `192.168.1.5`, yet the
private-prefix early return wins. -/
def pattern192Config : Engine.Config := ⟨[], ["192"], exThresholds, []⟩

/-- A process context for pid 7, started at time 0, with no recorded
connections. -/
def ctxPid7 : Engine.ProcessContext := ⟨0, "payload.exe", 7, [], []⟩

/-- A `BaseEvent` carrying a network connection from pid 7 to
`172.16.0.1:4444`. -/
def netEvent172 : Engine.BaseEvent :=
  ⟨0, "id", "host", "user", .networkConnection
    ⟨7, "payload.exe", .outbound, .tcp, "10.0.0.5", 50000, "172.16.0.1",
     4444, 0, 0, .established⟩⟩

/-- A `BaseEvent` carrying a network connection from pid 7 to
`192.168.1.5:4444`. -/
def netEventPrivate : Engine.BaseEvent :=
  ⟨0, "id", "host", "user", .networkConnection
    ⟨7, "payload.exe", .outbound, .tcp, "10.0.0.5", 50000, "192.168.1.5",
     4444, 0, 0, .established⟩⟩

/-- A process-start `BaseEvent` for pid 7 (a name on the engine's
`suspicious_names` list, so it also exercises `SuspiciousProcessStart`). -/
def startEventPid7 : Engine.BaseEvent :=
  ⟨0, "id", "host", "user", .processStart
    ⟨7, 1, "powershell.exe", "", "", 0, "Unknown", none, none, none⟩⟩

/-- A network-connection `BaseEvent` for pid 7 to the external address
`8.8.8.8`. -/
def netEventPid7 : Engine.BaseEvent :=
  ⟨0, "id", "host", "user", .networkConnection
    ⟨7, "powershell.exe", .outbound, .tcp, "10.0.0.5", 50000, "8.8.8.8",
     53, 0, 0, .established⟩⟩

/-- A select-loop trace delivering a process start for pid 7 followed by
seven network connections for pid 7, all at time 0 (so all connection
timestamps lie within one 10-second window). -/
def rapidTrace : List Engine.EngineStep :=
  Engine.EngineStep.deliver 0 startEventPid7 ::
    List.replicate 7 (Engine.EngineStep.deliver 0 netEventPid7)

/-- A context for pid 7 that already holds five connection timestamps, all
at time 0 (inside the trailing 10-second window of `now = 0`). -/
def rapidCtx : Engine.ProcessContext := ⟨0, "payload.exe", 7, [0, 0, 0, 0, 0], []⟩

/-- A context aged 11 minutes (started at time 40 when now = 700) that has a
connection recorded one second ago. -/
def staleActiveCtx : Engine.ProcessContext := ⟨40, "busy.exe", 5, [699], []⟩

/-- A context aged exactly 10 minutes (started at time 100 when now =
700). -/
def tenMinuteCtx : Engine.ProcessContext := ⟨100, "young.exe", 6, [], []⟩

/-- A two-context map for the maintenance-sweep witness. -/
def sweepMap : Engine.CtxMap := [(5, staleActiveCtx), (6, tenMinuteCtx)]

/-- The spec's example process: `powershell -enc SGVsbG8=`, with selectable
signature state. -/
def encEvent (signed : Bool) : ProcessEvent :=
  ⟨"2024-01-01T00:00:00Z", 100, 1, "C:\\WINDOWS\\System32\\powershell.exe",
   "C:\\WINDOWS\\explorer.exe", "powershell -enc SGVsbG8=", signed⟩

/-- A signed process whose command line matches only the low-confidence
pattern `iex`. -/
def signedIexEvent : ProcessEvent :=
  ⟨"2024-01-01T00:00:00Z", 101, 1, "C:\\WINDOWS\\System32\\powershell.exe",
   "C:\\WINDOWS\\explorer.exe", "powershell iex something", true⟩

/-- The spec's hidden-script example process:
`-WindowStyle Hidden -File D:\payload.ps1`. -/
def hiddenScriptEvent : ProcessEvent :=
  ⟨"2024-01-01T00:00:00Z", 102, 1, "C:\\WINDOWS\\System32\\powershell.exe",
   "C:\\WINDOWS\\explorer.exe", "-WindowStyle Hidden -File D:\\payload.ps1",
   false⟩

/-- A file system on which `d:\payload.ps1` is readable and contains a
`GetAsyncKeyState` indicator. -/
def fsWithKeyloggerScript : String → Option String :=
  fun p => if p == "d:\\payload.ps1"
    then some "Add-Type ...; [W.U]::GetAsyncKeyState($k)" else none

/-- A file system on which no file is readable. -/
def fsUnreadable : String → Option String := fun _ => none

/-- An unsigned PowerShell process with pid 1, script invocation on the
command line. -/
def exfilProc : ProcessEvent :=
  ⟨"2024-01-01T00:00:00Z", 1, 0, "C:\\WINDOWS\\System32\\powershell.exe",
   "C:\\WINDOWS\\explorer.exe", "powershell -File x.ps1", false⟩

/-- A network event with pid 2 (not the pid of `exfilProc`) to 8.8.8.8. -/
def exfilNetOther : NetworkEvent := ⟨"ts", 2, "TCP", "10.0.0.5", "8.8.8.8", 53⟩

/-- A network event with pid 3 to 8.8.8.8 from another port. -/
def exfilNetThird : NetworkEvent := ⟨"ts", 3, "TCP", "10.0.0.5", "8.8.8.8", 443⟩

/-! ## Theorems -/

theorem logCountKey_append (l1 l2 : List (Nat × Alert)) (p : Nat) (r : String) :
    logCountKey (l1 ++ l2) p r = logCountKey l1 p r + logCountKey l2 p r := by
  simp [logCountKey, List.filter_append]

theorem logCountKey_single (c : Nat × Alert) (p : Nat) (r : String) :
    logCountKey [c] p r = if c.1 = p ∧ c.2.rule = r then 1 else 0 := by
  by_cases h1 : c.1 = p <;> by_cases h2 : c.2.rule = r <;>
    simp [logCountKey, List.filter_cons, h1, h2]

/-- The dedup invariant of the sensor sink: every `(pid, rule)` key has at
most one log entry, and none at all while the key is missing from the
`alerted` set. -/
def SinkInv (st : SinkState) : Prop :=
  ∀ pid rule, logCountKey st.log pid rule ≤ 1 ∧
    ((pid, rule) ∉ st.alerted → logCountKey st.log pid rule = 0)

theorem sinkStep_inv {st : SinkState} (c : Nat × Alert) (h : SinkInv st) :
    SinkInv (sinkStep st c) := by
  intro pid rule
  unfold sinkStep
  by_cases hmem : (c.1, c.2.rule) ∈ st.alerted
  · simpa [hmem] using h pid rule
  · simp only [hmem, if_false, if_neg]
    by_cases hkey : c.1 = pid ∧ c.2.rule = rule
    · constructor
      · rw [logCountKey_append, logCountKey_single, if_pos hkey]
        have h0 : logCountKey st.log pid rule = 0 := by
          apply (h pid rule).2
          rwa [← hkey.1, ← hkey.2]
        omega
      · intro hnot
        exact absurd (by rw [hkey.1, hkey.2] at hmem ⊢; exact List.mem_cons_self _ _)
          hnot
    · constructor
      · rw [logCountKey_append, logCountKey_single, if_neg hkey]
        have := (h pid rule).1
        omega
      · intro hnot
        have hp : (pid, rule) ∉ st.alerted := fun hx =>
          hnot (List.mem_cons_of_mem _ hx)
        rw [logCountKey_append, logCountKey_single, if_neg hkey]
        have := (h pid rule).2 hp
        omega

theorem run_sink_inv (cands : List (Nat × Alert)) :
    ∀ st : SinkState, SinkInv st → SinkInv (cands.foldl sinkStep st) := by
  induction cands with
  | nil => intro st h; exact h
  | cons c cs ih => intro st h; exact ih _ (sinkStep_inv c h)

/-- C1.  For every `(pid, rule_name)` dedup key, at most one alert is
persisted to the alert log across the whole run of the sensor's detection
loop: each persistence site first checks `alerted.insert((pid, rule))` and
silently drops the alert when the key is already present, so no matter
which candidate alerts the rules produce, in any order and with any
repetition, the persisted log never holds two entries for one key. -/
theorem C1_sink_persists_at_most_one_per_key
    (cands : List (Nat × Alert)) (pid : Nat) (rule : String) :
    logCountKey (run_alert_sink cands).log pid rule ≤ 1 := by
  have hinv : SinkInv (⟨[], []⟩ : SinkState) := by
    intro p r
    constructor <;> simp [logCountKey]
  exact (run_sink_inv cands _ hinv pid rule).1

/-- C8.  Round-trip: serializing any `Alert` record to its JSON line
representation and parsing it back, as the logger and the reporting tool
do, reproduces the record exactly - in particular identical `severity`,
`rule`, `process`, `parent`, `command_line` and `details` fields. -/
theorem C8_alert_json_round_trip (a : Alert) :
    alertFromJson (alertToJson a) = some a := by
  cases a with
  | mk time severity rule process parent command_line details =>
    cases command_line <;> cases details <;> rfl

/-- C9 (amended).  `perform_shutdown` joins all four component threads, in
the fixed literal order network monitor, correlation engine, process
monitor, alert handler - the alert handler last - each with the bounded
5-second timeout, and whatever each join's outcome is (stopped, timed out,
or panicked), every component is still processed: no outcome aborts the
sequence. -/
theorem C9_shutdown_joins_bounded_in_fixed_order
    (threads : String → ThreadModel) (polls : Nat) :
    (perform_shutdown_joins threads polls).map Prod.fst =
      ["Network Monitor", "Correlation Engine", "Process Monitor",
       "Alert Handler"] ∧
    (perform_shutdown_joins threads polls).length =
      shutdown_components.length ∧
    shutdown_join_timeout_secs = 5 := by
  refine ⟨?_, ?_, rfl⟩ <;> simp [perform_shutdown_joins, shutdown_components]

/-- C9 counterexample.  The claimed join order "producers before the
consumer" does not hold of `perform_shutdown`: the process monitor (a
producer) is joined after the correlation engine (the consumer of both
event channels) in the literal `components` vector. -/
theorem C9_counterexample_producer_joined_after_consumer :
    ¬ (∀ p ∈ producer_components,
        shutdown_components.findIdx (fun c => c == p) <
          shutdown_components.findIdx (fun c => c == consumer_component)) := by
  decide

theorem mem_ite_list {α : Type} {c : Prop} [Decidable c] {l : List α} {a : α}
    (h : a ∈ (if c then l else [])) : a ∈ l := by
  split at h
  · exact h
  · exact absurd h (List.not_mem_nil a)

/-- C2 (amended).  The suspicious-destination rule never fires for a remote
address that starts with `192.168.`, `10.` or `127.`, or equals `::1`:
`is_suspicious_destination` returns `false` for every such address and
`process_event` emits no `SuspiciousNetworkConnection` alert for a network
event with such a remote address, regardless of the blocklist or the
configured pattern content.  (The `172.16.0.0/12` and `169.254.0.0/16`
ranges of the original claim are not excluded by the code; see the
counterexample.) -/
theorem C2_private_prefix_never_fires
    (rm : String → String → Bool) (config : Engine.Config) (address : String)
    (h : strStartsWith address "192.168." = true
       ∨ strStartsWith address "10." = true
       ∨ strStartsWith address "127." = true
       ∨ address = "::1") :
    Engine.is_suspicious_destination rm address config = false ∧
    ∀ (now : Int) (ev : Engine.BaseEvent) (ne : Engine.NetworkEvent)
      (m : Engine.CtxMap), ev.event_type = .networkConnection ne →
      ne.remote_address = address →
      ∀ a ∈ (Engine.process_event rm config now ev m).2,
        a.rule_name ≠ "SuspiciousNetworkConnection" := by
  have hc : (strStartsWith address "192.168." || strStartsWith address "10."
      || strStartsWith address "127." || (address == "::1")) = true := by
    rcases h with h | h | h | h <;> simp [h]
  have hdest : Engine.is_suspicious_destination rm address config = false := by
    simp only [Engine.is_suspicious_destination, hc]
    rfl
  refine ⟨hdest, ?_⟩
  intro now ev ne m hev haddr a ha
  rcases hfind : Engine.ctxFind m ne.pid with _ | ctx <;>
    simp only [Engine.process_event, hev, hfind] at ha
  · exact absurd ha (List.not_mem_nil a)
  · simp only [haddr, hdest] at ha
    simp only [List.mem_append, Bool.false_eq_true, if_false] at ha
    rcases ha with (ha | ha) | ha
    · have h2 := mem_ite_list (mem_ite_list ha)
      rcases List.mem_singleton.mp h2 with rfl
      show ("RapidNetworkConnections" : String) ≠ "SuspiciousNetworkConnection"
      decide
    · exact absurd ha (List.not_mem_nil a)
    · have h2 := mem_ite_list ha
      rcases List.mem_singleton.mp h2 with rfl
      show ("NewProcessNetworkActivity" : String) ≠ "SuspiciousNetworkConnection"
      decide

/-- C2 witness: for the spec's example address `192.168.1.5` the rule does
not fire even when the configured blocklist pattern `192` matches the
address. -/
theorem C2_witness_192_168_1_5 :
    Engine.is_suspicious_destination literalPatternMatch "192.168.1.5"
      pattern192Config = false :=
  (C2_private_prefix_never_fires literalPatternMatch pattern192Config
    "192.168.1.5" (Or.inl (by decide))).1

/-- C2 counterexample: `172.16.0.1` lies in the RFC1918 range
`172.16.0.0/12`, yet with the configured literal pattern `172` the rule
fires - `is_suspicious_destination` returns `true` and `process_event`
emits a `SuspiciousNetworkConnection` alert for a connection to that
address - so the original claim's `172.16.0.0/12` (and likewise
`169.254.0.0/16`) exclusion does not hold. -/
theorem C2_counterexample_172_16_0_1 :
    Engine.is_suspicious_destination literalPatternMatch "172.16.0.1"
      pattern172Config = true ∧
    Engine.countAlertsWithRule
      (Engine.process_event literalPatternMatch pattern172Config 0
        netEvent172 [(7, ctxPid7)]).2 "SuspiciousNetworkConnection" = 1 := by
  decide

theorem ctxRemove_mem (m : Engine.CtxMap) (k : Nat)
    (e : Nat × Engine.ProcessContext) :
    e ∈ Engine.ctxRemove m k ↔ e ∈ m ∧ e.1 ≠ k := by
  simp [Engine.ctxRemove, List.mem_filter]

theorem foldl_ctxRemove_mem (pids : List Nat) :
    ∀ (m : Engine.CtxMap) (e : Nat × Engine.ProcessContext),
      e ∈ pids.foldl (fun acc pid => Engine.ctxRemove acc pid) m ↔
        e ∈ m ∧ e.1 ∉ pids := by
  induction pids with
  | nil => simp
  | cons p ps ih =>
    intro m e
    rw [List.foldl_cons, ih]
    rw [ctxRemove_mem]
    simp only [List.mem_cons]
    tauto

theorem nodupKeys_unique {m : Engine.CtxMap} (hnd : Engine.NodupKeys m)
    {k : Nat} {c1 c2 : Engine.ProcessContext}
    (h1 : (k, c1) ∈ m) (h2 : (k, c2) ∈ m) : c1 = c2 := by
  induction m with
  | nil => cases h1
  | cons e t ih =>
    have hnd' : (e.1 ∉ t.map Prod.fst) ∧ Engine.NodupKeys t := by
      simpa [Engine.NodupKeys] using hnd
    rcases List.mem_cons.mp h1 with he1 | h1'
    · rcases List.mem_cons.mp h2 with he2 | h2'
      · rw [← he1] at he2
        exact congrArg Prod.snd he2.symm
      · exfalso
        apply hnd'.1
        rw [← he1]
        exact List.mem_map.mpr ⟨(k, c2), h2', rfl⟩
    · rcases List.mem_cons.mp h2 with he2 | h2'
      · exfalso
        apply hnd'.1
        rw [← he2]
        exact List.mem_map.mpr ⟨(k, c1), h1', rfl⟩
      · exact ih hnd'.2 h1' h2'

/-- C4.  The maintenance sweep removes exactly the contexts more than 10
minutes (600 s) old: a context survives `cleanup_old_contexts` iff it was
present and `now - start_time ≤ 600`, with no reference to its recorded
connection activity - a context started 11 minutes ago is purged even if a
connection was recorded a second ago, and a context aged exactly 10
minutes is kept. -/
theorem C4_cleanup_purges_exactly_contexts_older_than_10min
    (now : Int) (m : Engine.CtxMap) (hnd : Engine.NodupKeys m)
    (k : Nat) (c : Engine.ProcessContext) :
    ((k, c) ∈ Engine.cleanup_old_contexts now m ↔
      ((k, c) ∈ m ∧ now - c.start_time ≤ 600)) := by
  unfold Engine.cleanup_old_contexts
  rw [foldl_ctxRemove_mem]
  constructor
  · rintro ⟨hm, hk⟩
    refine ⟨hm, ?_⟩
    by_contra hgt
    push_neg at hgt
    apply hk
    exact List.mem_map.mpr ⟨(k, c), List.mem_filter.mpr ⟨hm, by simpa using hgt⟩, rfl⟩
  · rintro ⟨hm, hle⟩
    refine ⟨hm, ?_⟩
    intro hk
    rcases List.mem_map.mp hk with ⟨⟨k', c'⟩, he, hke⟩
    rcases List.mem_filter.mp he with ⟨hem, hecond⟩
    simp only at hke
    subst hke
    have hcc : c' = c := nodupKeys_unique hnd hem hm
    subst hcc
    have : now - c'.start_time > 600 := by simpa using hecond
    omega

/-- C4 witness: with `now = 700`, the context started at time 40 (aged 11
minutes) is purged despite its connection recorded at time 699, and the
context started at time 100 (aged exactly 10 minutes) is kept. -/
theorem C4_witness_stale_purged_fresh_kept :
    ((5, staleActiveCtx) ∉ Engine.cleanup_old_contexts 700 sweepMap) ∧
    ((6, tenMinuteCtx) ∈ Engine.cleanup_old_contexts 700 sweepMap) := by
  have hnd : Engine.NodupKeys sweepMap := by
    show (sweepMap.map Prod.fst).Nodup
    decide
  have h5 := C4_cleanup_purges_exactly_contexts_older_than_10min 700 sweepMap
    hnd 5 staleActiveCtx
  have h6 := C4_cleanup_purges_exactly_contexts_older_than_10min 700 sweepMap
    hnd 6 tenMinuteCtx
  constructor
  · intro hmem
    have hle := (h5.mp hmem).2
    revert hle
    decide
  · exact h6.mpr ⟨by decide, by decide⟩

theorem ctxFind_mem {m : Engine.CtxMap} {k : Nat} {c : Engine.ProcessContext}
    (h : Engine.ctxFind m k = some c) : ∃ e ∈ m, e.1 = k ∧ e.2 = c := by
  unfold Engine.ctxFind at h
  cases hf : m.find? (fun e => e.1 == k) with
  | none => rw [hf] at h; cases h
  | some e =>
    rw [hf] at h
    have hm := List.mem_of_find?_eq_some hf
    have hp := List.find?_some hf
    simp only [beq_iff_eq] at hp
    simp only [Option.map_some', Option.some.injEq] at h
    exact ⟨e, hm, hp, h⟩

theorem keyPid_ctxFind {m : Engine.CtxMap} {k : Nat}
    {c : Engine.ProcessContext} (hkp : Engine.KeyPid m)
    (h : Engine.ctxFind m k = some c) : c.pid = k := by
  rcases ctxFind_mem h with ⟨e, hem, h1, h2⟩
  have he := hkp e hem
  rw [← h2, he, h1]

theorem keyPid_ctxInsert {m : Engine.CtxMap} {k : Nat}
    {v : Engine.ProcessContext} (hk : Engine.KeyPid m) (hv : v.pid = k) :
    Engine.KeyPid (Engine.ctxInsert m k v) := by
  intro e he
  rcases List.mem_cons.mp he with rfl | he'
  · simpa using hv
  · exact hk e (List.mem_filter.mp he').1

theorem keyPid_ctxRemove (m : Engine.CtxMap) (k : Nat)
    (hk : Engine.KeyPid m) : Engine.KeyPid (Engine.ctxRemove m k) :=
  fun e he => hk e ((ctxRemove_mem m k e).mp he).1

theorem keyPid_cleanup (now : Int) (m : Engine.CtxMap)
    (hk : Engine.KeyPid m) :
    Engine.KeyPid (Engine.cleanup_old_contexts now m) := by
  intro e he
  unfold Engine.cleanup_old_contexts at he
  exact hk e ((foldl_ctxRemove_mem _ _ _).mp he).1

theorem keyPid_process_event (rm : String → String → Bool)
    (cfg : Engine.Config) (now : Int) (ev : Engine.BaseEvent)
    {m : Engine.CtxMap} (hk : Engine.KeyPid m) :
    Engine.KeyPid (Engine.process_event rm cfg now ev m).1 := by
  rcases hev : ev.event_type with pe | pe | ne | b <;>
    simp only [Engine.process_event, hev]
  · exact keyPid_ctxInsert hk rfl
  · exact keyPid_ctxRemove m pe.pid hk
  · rcases hfind : Engine.ctxFind m ne.pid with _ | ctx <;> simp only [hfind]
    · exact hk
    · have hpid : ctx.pid = ne.pid := keyPid_ctxFind hk hfind
      exact keyPid_ctxInsert hk hpid
  · exact hk

theorem keyPid_engine_step (rm : String → String → Bool)
    (cfg : Engine.Config) (s : Engine.EngineStep) {m : Engine.CtxMap}
    (hk : Engine.KeyPid m) :
    Engine.KeyPid (Engine.engine_step rm cfg s m).1 := by
  cases s with
  | deliver now ev => exact keyPid_process_event rm cfg now ev hk
  | tick now => exact keyPid_cleanup now m hk

theorem engine_step_stateful_alert (rm : String → String → Bool)
    (cfg : Engine.Config) (s : Engine.EngineStep) {m : Engine.CtxMap}
    (hk : Engine.KeyPid m) :
    ∀ a ∈ (Engine.engine_step rm cfg s m).2,
      a.rule_name ∈ Engine.stateful_network_rules →
      Engine.stepHasNetPid s a.pid = true := by
  cases s with
  | tick now =>
    intro a ha
    exact absurd ha (List.not_mem_nil a)
  | deliver now ev =>
    rcases hev : ev.event_type with pe | pe | ne | b <;>
      simp only [Engine.engine_step, Engine.process_event, hev]
    · intro a ha hrule
      rcases List.mem_singleton.mp (mem_ite_list ha) with rfl
      simp [Engine.Alert.new, Engine.stateful_network_rules] at hrule
    · intro a ha
      exact absurd ha (List.not_mem_nil a)
    · rcases hfind : Engine.ctxFind m ne.pid with _ | ctx <;> simp only [hfind]
      · intro a ha
        exact absurd ha (List.not_mem_nil a)
      · intro a ha _
        have hpid := keyPid_ctxFind hk hfind
        have hapid : a.pid = ctx.pid := by
          rcases List.mem_append.mp ha with ha1 | ha2
          · rcases List.mem_append.mp ha1 with har | had
            · rcases List.mem_singleton.mp (mem_ite_list (mem_ite_list har))
                with rfl
              rfl
            · rcases List.mem_singleton.mp (mem_ite_list had) with rfl
              rfl
          · rcases List.mem_singleton.mp (mem_ite_list ha2) with rfl
            rfl
        simp only [Engine.stepHasNetPid, hev, beq_iff_eq]
        rw [hapid, hpid]
    · intro a ha
      exact absurd ha (List.not_mem_nil a)

theorem run_engine_no_net_no_stateful (rm : String → String → Bool)
    (cfg : Engine.Config) (steps : List Engine.EngineStep) :
    ∀ (p : Nat) (m : Engine.CtxMap), Engine.KeyPid m →
      steps.all (fun s => !Engine.stepHasNetPid s p) = true →
      ∀ a ∈ (Engine.run_engine rm cfg steps m).2, a.pid = p →
        a.rule_name ∉ Engine.stateful_network_rules := by
  induction steps with
  | nil =>
    intro p m _ _ a ha
    exact absurd ha (List.not_mem_nil a)
  | cons s ss ih =>
    intro p m hk hall a ha hpid hrule
    rw [List.all_cons, Bool.and_eq_true] at hall
    simp only [Engine.run_engine] at ha
    rcases List.mem_append.mp ha with h1 | h2
    · have hs := engine_step_stateful_alert rm cfg s hk a h1 hrule
      rw [hpid] at hs
      rw [hs] at hall
      exact absurd hall.1 (by decide)
    · exact ih p _ (keyPid_engine_step rm cfg s hk) hall.2 a h2 hpid hrule

/-- C5.  A `NetworkConnection` event whose pid has no context is dropped
with no effect: the context map is returned unchanged and no alert is
emitted.  Consequently, over any engine run starting from a well-keyed
context map, a process for which no network-connection event is ever
delivered never has any of the three stateful network rules
(`RapidNetworkConnections`, `SuspiciousNetworkConnection`,
`NewProcessNetworkActivity`) fire with its pid. -/
theorem C5_unattributed_network_events_have_no_effect :
    (∀ (rm : String → String → Bool) (cfg : Engine.Config) (now : Int)
       (ev : Engine.BaseEvent) (ne : Engine.NetworkEvent)
       (m : Engine.CtxMap),
       ev.event_type = Engine.EventType.networkConnection ne →
       Engine.ctxFind m ne.pid = none →
       Engine.process_event rm cfg now ev m = (m, [])) ∧
    (∀ (rm : String → String → Bool) (cfg : Engine.Config)
       (steps : List Engine.EngineStep) (p : Nat) (m : Engine.CtxMap),
       Engine.KeyPid m →
       steps.all (fun s => !Engine.stepHasNetPid s p) = true →
       ∀ a ∈ (Engine.run_engine rm cfg steps m).2, a.pid = p →
         a.rule_name ∉ Engine.stateful_network_rules) := by
  constructor
  · intro rm cfg now ev ne m hev hfind
    simp only [Engine.process_event, hev, hfind]
  · intro rm cfg steps p m hk hall
    exact run_engine_no_net_no_stateful rm cfg steps p m hk hall

/-- C5 witness: the concrete network event for pid 7 against the empty
context map is a no-op, and in a run consisting only of a process start
(which does raise a `SuspiciousProcessStart` alert for pid 7), the alert
raised for pid 7 is not a stateful network rule. -/
theorem C5_witness_pid7 :
    (Engine.process_event rmNone emptyPatternsConfig 0 netEventPid7 [] =
      ([], [])) ∧
    (Engine.Alert.new 0 .high "SuspiciousProcessStart"
      "Suspicious process started: powershell.exe" "powershell.exe" 7
      ["Process: powershell.exe"]).rule_name ∉
        Engine.stateful_network_rules := by
  constructor
  · exact C5_unattributed_network_events_have_no_effect.1 rmNone
      emptyPatternsConfig 0 netEventPid7 _ [] rfl rfl
  · exact C5_unattributed_network_events_have_no_effect.2 rmNone
      emptyPatternsConfig [Engine.EngineStep.deliver 0 startEventPid7] 7 []
      (fun e he => absurd he (List.not_mem_nil e)) (by decide) _ (by decide)
      rfl

theorem countAlertsWithRule_append (l1 l2 : List Engine.Alert) (r : String) :
    Engine.countAlertsWithRule (l1 ++ l2) r =
      Engine.countAlertsWithRule l1 r + Engine.countAlertsWithRule l2 r := by
  simp [Engine.countAlertsWithRule, List.filter_append]

/-- C3 (amended).  When a network event arrives for a context that already
holds 5 connection timestamps all inside the trailing 10-second window, the
rapid-connection check (more than 5 recorded, more than 5 of them recent)
triggers: that `process_event` call emits exactly one
`RapidNetworkConnections` alert, and every `RapidNetworkConnections` alert
has MEDIUM severity.  (The engine applies no dedup, so later qualifying
connections fire the rule again for the same pid; see the
counterexample.) -/
theorem C3_rapid_rule_fires_once_at_sixth_connection
    (rm : String → String → Bool) (cfg : Engine.Config) (now : Int)
    (ev : Engine.BaseEvent) (ne : Engine.NetworkEvent) (m : Engine.CtxMap)
    (ctx : Engine.ProcessContext)
    (hev : ev.event_type = Engine.EventType.networkConnection ne)
    (hctx : Engine.ctxFind m ne.pid = some ctx)
    (hlen : ctx.network_connections.length = 5)
    (hrec : ∀ t ∈ ctx.network_connections, now - 10 < t) :
    Engine.countAlertsWithRule (Engine.process_event rm cfg now ev m).2
      "RapidNetworkConnections" = 1 ∧
    ∀ a ∈ (Engine.process_event rm cfg now ev m).2,
      a.rule_name = "RapidNetworkConnections" →
      a.severity = Engine.AlertSeverity.medium := by
  have hfull : List.filter (fun time => decide (time > now - 10))
      (ctx.network_connections ++ [now]) = ctx.network_connections ++ [now] := by
    rw [List.filter_eq_self]
    intro t ht
    rcases List.mem_append.mp ht with h | h
    · simpa using hrec t h
    · rcases List.mem_singleton.mp h with rfl
      simp only [decide_eq_true_eq]
      omega
  have hlen6 : (ctx.network_connections ++ [now]).length = 6 := by simp [hlen]
  constructor
  · simp only [Engine.process_event, hev, hctx]
    rw [hfull, hlen6]
    rw [if_pos (by norm_num : (6 : Nat) > 5), if_pos (by norm_num : (6 : Nat) > 5)]
    rw [countAlertsWithRule_append, countAlertsWithRule_append]
    have h1 : ∀ a : Engine.Alert, a.rule_name = "RapidNetworkConnections" →
        Engine.countAlertsWithRule [a] "RapidNetworkConnections" = 1 := by
      intro a h
      simp [Engine.countAlertsWithRule, List.filter_cons, h]
    rw [h1 _ rfl]
    have h2 : ∀ {c : Prop} [Decidable c] (a : Engine.Alert),
        a.rule_name ≠ "RapidNetworkConnections" →
        Engine.countAlertsWithRule (if c then [a] else [])
          "RapidNetworkConnections" = 0 := by
      intro c _ a hne
      split
      · simp [Engine.countAlertsWithRule, List.filter_cons, hne]
      · rfl
    rw [h2 _ (by simp [Engine.Alert.new]), h2 _ (by simp [Engine.Alert.new])]
  · intro a ha hrule
    simp only [Engine.process_event, hev, hctx] at ha
    rcases List.mem_append.mp ha with ha1 | ha2
    · rcases List.mem_append.mp ha1 with har | had
      · rcases List.mem_singleton.mp (mem_ite_list (mem_ite_list har)) with rfl
        rfl
      · rcases List.mem_singleton.mp (mem_ite_list had) with rfl
        simp [Engine.Alert.new] at hrule
    · rcases List.mem_singleton.mp (mem_ite_list ha2) with rfl
      simp [Engine.Alert.new] at hrule

/-- C3 witness: a sixth connection for pid 7, whose context holds five
timestamps all within the window, produces exactly one
`RapidNetworkConnections` alert in that evaluation. -/
theorem C3_witness_sixth_connection :
    Engine.countAlertsWithRule
      (Engine.process_event rmNone emptyPatternsConfig 0 netEventPid7
        [(7, rapidCtx)]).2 "RapidNetworkConnections" = 1 :=
  (C3_rapid_rule_fires_once_at_sixth_connection rmNone emptyPatternsConfig 0
    netEventPid7 _ [(7, rapidCtx)] rapidCtx rfl rfl rfl (by decide)).1

/-- C3 counterexample: nothing suppresses subsequent triggers.  In a run
where pid 7 starts and then makes seven connections inside one 10-second
window, the engine emits the `RapidNetworkConnections` alert twice (at the
sixth and seventh connections): no dedup exists between the engine and the
alert handler, so the "fires exactly once / subsequent triggers suppressed
by dedup" part of the claim is false for this pipeline. -/
theorem C3_counterexample_rapid_fires_twice :
    Engine.countAlertsWithRule
      (Engine.run_engine rmNone emptyPatternsConfig rapidTrace []).2
      "RapidNetworkConnections" = 2 := by
  decide

theorem cmdlineLoop_severity (time : String) (event : ProcessEvent)
    (cl : String) :
    ∀ (l : List String) (a : Alert),
      detectSuspiciousCmdlineLoop time event cl l = some a →
      a.severity = "HIGH" := by
  intro l
  induction l with
  | nil => intro a h; cases h
  | cons q rest ih =>
    intro a h
    simp only [detectSuspiciousCmdlineLoop] at h
    cases hq : strContains cl q with
    | false =>
      rw [hq] at h
      simp only [Bool.false_eq_true, if_false] at h
      exact ih a h
    | true =>
      rw [hq] at h
      simp only [if_true] at h
      cases hs : (event.is_signed &&
          !high_confidence.any (fun p => strContains cl p)) with
      | true =>
        rw [hs] at h
        simp only [if_true] at h
        exact ih a h
      | false =>
        rw [hs] at h
        simp only [Bool.false_eq_true, if_false, Option.some.injEq] at h
        rw [← h]
        rfl

theorem cmdlineLoop_fires (time : String) (event : ProcessEvent)
    (cl : String)
    (hh : high_confidence.any (fun p => strContains cl p) = true) :
    ∀ l : List String, (∃ p ∈ l, strContains cl p = true) →
      (detectSuspiciousCmdlineLoop time event cl l).isSome = true := by
  intro l
  induction l with
  | nil =>
    rintro ⟨p, hp, _⟩
    exact absurd hp (List.not_mem_nil p)
  | cons q rest ih =>
    rintro ⟨p, hp, hcp⟩
    simp only [detectSuspiciousCmdlineLoop]
    cases hq : strContains cl q with
    | true => simp [hq, hh]
    | false =>
      simp only [hq, Bool.false_eq_true, if_false]
      apply ih
      rcases List.mem_cons.mp hp with rfl | hrest
      · rw [hq] at hcp
        cases hcp
      · exact ⟨p, hrest, hcp⟩

theorem cmdlineLoop_signed_low_confidence_none (time : String)
    (event : ProcessEvent) (cl : String) (hs : event.is_signed = true)
    (hh : high_confidence.any (fun p => strContains cl p) = false) :
    ∀ l : List String, detectSuspiciousCmdlineLoop time event cl l = none := by
  intro l
  induction l with
  | nil => rfl
  | cons q rest ih =>
    simp only [detectSuspiciousCmdlineLoop]
    cases hq : strContains cl q with
    | true => simp [hq, hh, hs, ih]
    | false => simp [hq, ih]

/-- C6.  The suspicious-command-line rule fires with HIGH severity whenever
the (lowercased) command line contains a high-confidence pattern, even for
a signed process; when the process is signed and no high-confidence pattern
is present, it returns no alert (so a command line matching only
low-confidence patterns such as bare `iex` is suppressed); and for the
spec's example command line `powershell -enc SGVsbG8=` it returns a HIGH
alert for both the signed and the unsigned process. -/
theorem C6_high_confidence_patterns_always_escalate :
    (∀ (time : String) (event : ProcessEvent),
       (∃ p ∈ high_confidence,
          strContains (strToLower event.command_line) p = true) →
       ∃ a, detect_suspicious_cmdline time event = some a ∧
         a.severity = "HIGH") ∧
    (∀ (time : String) (event : ProcessEvent), event.is_signed = true →
       (∀ p ∈ high_confidence,
          strContains (strToLower event.command_line) p = false) →
       detect_suspicious_cmdline time event = none) ∧
    (∀ (time : String) (signed : Bool),
       ∃ a, detect_suspicious_cmdline time (encEvent signed) = some a ∧
         a.severity = "HIGH") := by
  refine ⟨?_, ?_, ?_⟩
  · rintro time event ⟨p, hpmem, hpc⟩
    have hh : high_confidence.any
        (fun q => strContains (strToLower event.command_line) q) = true :=
      List.any_eq_true.mpr ⟨p, hpmem, hpc⟩
    have hsub : ∀ x ∈ high_confidence, x ∈ suspicious_patterns := by decide
    have hfires := cmdlineLoop_fires time event _ hh suspicious_patterns
      ⟨p, hsub p hpmem, hpc⟩
    cases heq : detect_suspicious_cmdline time event with
    | none =>
      have hloop : detectSuspiciousCmdlineLoop time event
          (strToLower event.command_line) suspicious_patterns = none := heq
      rw [hloop] at hfires
      cases hfires
    | some a =>
      have hloop : detectSuspiciousCmdlineLoop time event
          (strToLower event.command_line) suspicious_patterns = some a := heq
      exact ⟨a, rfl, cmdlineLoop_severity time event _ _ a hloop⟩
  · intro time event hs hnone
    have hh : high_confidence.any
        (fun q => strContains (strToLower event.command_line) q) = false := by
      rw [List.any_eq_false]
      intro x hx
      rw [hnone x hx]
      simp
    exact cmdlineLoop_signed_low_confidence_none time event _ hs hh
      suspicious_patterns
  · intro time signed
    cases signed <;> exact ⟨_, rfl, rfl⟩

/-- C6 witness: the signed process with command line
`powershell -enc SGVsbG8=` raises a HIGH alert, and the signed process with
command line `powershell iex something` (only the low-confidence `iex`
pattern) raises none. -/
theorem C6_witness_enc_and_signed_iex :
    (∃ a, detect_suspicious_cmdline "t" (encEvent true) = some a ∧
       a.severity = "HIGH") ∧
    detect_suspicious_cmdline "t" signedIexEvent = none := by
  constructor
  · exact C6_high_confidence_patterns_always_escalate.1 "t" (encEvent true)
      ⟨"-enc ", by decide, by decide⟩
  · exact C6_high_confidence_patterns_always_escalate.2.1 "t" signedIexEvent
      rfl (by decide)

/-- C10.  `detect_powershell_network_exfil` ignores the network event's
pid: for one process event and any two network events with the same remote
address, it fires on one iff it fires on the other.  By contrast,
`detect_possible_keylogger` and `detect_unsigned_network` return `None`
(and, for the latter, leave the counter map untouched) whenever
`net.pid != proc.pid` - and the exfil rule can indeed pair a PowerShell
process with a network connection belonging to a different process. -/
theorem C10_exfil_rule_ignores_network_pid :
    (∀ (time : String) (proc : ProcessEvent) (n1 n2 : NetworkEvent),
       n1.remote_addr = n2.remote_addr →
       (detect_powershell_network_exfil time proc n1).isSome =
         (detect_powershell_network_exfil time proc n2).isSome) ∧
    (∀ (time : String) (proc : ProcessEvent) (net : NetworkEvent),
       net.pid ≠ proc.pid → detect_possible_keylogger time proc net = none) ∧
    (∀ (time : String) (now : Int) (parseTs : String → Option Int)
       (counts : List (Nat × Nat)) (proc : ProcessEvent)
       (net : NetworkEvent), net.pid ≠ proc.pid →
       detect_unsigned_network time now parseTs counts proc net =
         (counts, none)) ∧
    (∃ (time : String) (proc : ProcessEvent) (net : NetworkEvent),
       net.pid ≠ proc.pid ∧
       (detect_powershell_network_exfil time proc net).isSome = true) := by
  refine ⟨?_, ?_, ?_, ?_⟩
  · intro time proc n1 n2 h
    simp only [detect_powershell_network_exfil]
    rw [h]
    by_cases h1 : (!(strEndsWith (strToLower proc.image) "powershell.exe"
        || strEndsWith (strToLower proc.image) "pwsh.exe")) = true
    · simp [h1]
    · by_cases h2 : (n2.remote_addr = "127.0.0.1" ∨ n2.remote_addr = "[::1]"
          ∨ n2.remote_addr = "localhost")
      · simp [h1, h2]
      · by_cases h3 : (!(strContains (strToLower proc.command_line) "-file"
            || strContains (strToLower proc.command_line) "-encodedcommand"
            || strContains (strToLower proc.command_line) "-enc "
            || (strContains (strToLower proc.command_line) "invoke-webrequest"
                || strContains (strToLower proc.command_line)
                    "discord.com/api/webhooks"
                || strContains (strToLower proc.command_line) "send-todiscord")
            || !proc.is_signed)) = true <;>
          simp [h1, h2, h3]
  · intro time proc net h
    simp [detect_possible_keylogger, h]
  · intro time now parseTs counts proc net h
    simp [detect_unsigned_network, h]
  · exact ⟨"t", exfilProc, exfilNetOther, by decide, by decide⟩

/-- C10 witness: the unsigned PowerShell process with pid 1 paired with
network events of pids 2 and 3 (same remote address): the exfil rule gives
the same firing on both, while the keylogger and unsigned-network rules
drop the mismatched-pid pair. -/
theorem C10_witness_cross_pid_pairing :
    ((detect_powershell_network_exfil "t" exfilProc exfilNetOther).isSome =
      (detect_powershell_network_exfil "t" exfilProc exfilNetThird).isSome) ∧
    (detect_possible_keylogger "t" exfilProc exfilNetOther = none) ∧
    (detect_unsigned_network "t" 0 (fun _ => none) [] exfilProc
      exfilNetOther = ([], none)) :=
  ⟨C10_exfil_rule_ignores_network_pid.1 "t" exfilProc exfilNetOther
     exfilNetThird rfl,
   C10_exfil_rule_ignores_network_pid.2.1 "t" exfilProc exfilNetOther
     (by decide),
   C10_exfil_rule_ignores_network_pid.2.2.1 "t" 0 (fun _ => none) []
     exfilProc exfilNetOther (by decide)⟩

theorem strData_append (s t : String) : (s ++ t).data = s.data ++ t.data := by
  cases s
  cases t
  rfl

theorem listIsInfixOf_append_left (n t s : List Char)
    (h : listIsInfixOf n t = true) : listIsInfixOf n (s ++ t) = true := by
  induction s with
  | nil => simpa using h
  | cons c cs ih =>
    have hstep : listIsInfixOf n ((c :: cs) ++ t) =
        (n.isPrefixOf ((c :: cs) ++ t) || listIsInfixOf n (cs ++ t)) := rfl
    rw [hstep, ih]
    simp

theorem strContains_append_right (s t needle : String)
    (h : strContains t needle = true) :
    strContains (s ++ t) needle = true := by
  simp only [strContains] at h ⊢
  rw [strData_append]
  exact listIsInfixOf_append_left needle.data t.data s.data h

theorem hiddenDriveAlert_spec (rf : String → Option String) (t : String)
    (e : ProcessEvent) (p : String) (d : Char) :
    (hiddenDriveAlert rf t e p d).severity = "HIGH" ∧
    (rf (strReplaceSlashes p) = none →
      (hiddenDriveAlert rf t e p d).details =
        some ("Hidden PowerShell -File from drive " ++ d.toString
          ++ " detected: " ++ p ++ " (script unreadable)")) ∧
    (∀ c, rf (strReplaceSlashes p) = some c →
      strContains (strToLower c) "getasynckeystate" = true →
      (hiddenDriveAlert rf t e p d).details =
        some ("Script " ++ p ++ " contains indicator: "
          ++ "getasynckeystate")) := by
  refine ⟨?_, ?_, ?_⟩
  · cases hrf : rf (strReplaceSlashes p) with
    | none =>
      simp only [hiddenDriveAlert, hrf]
      rfl
    | some content =>
      simp only [hiddenDriveAlert, hrf]
      cases hfind : hidden_script_indicators_drive.find?
          (fun ind => strContains (strToLower content) ind) <;>
        simp only [hfind] <;> rfl
  · intro h
    simp only [hiddenDriveAlert, h]
  · intro c hc hcc
    have hfind : hidden_script_indicators_drive.find?
        (fun ind => strContains (strToLower c) ind) =
          some "getasynckeystate" := by
      rw [show hidden_script_indicators_drive = "getasynckeystate" ::
        ["add-type", "invoke-webrequest", "discord.com/api/webhooks",
         "send-todiscord", "get-content", "start-keylogger"] from rfl]
      exact List.find?_cons_of_pos _ (by simpa using hcc)
    simp only [hiddenDriveAlert, hc, hfind]

theorem hiddenFragmentCheck_spec (rf : String → Option String) (t : String)
    (e : ProcessEvent) (p pl : String)
    (hfrag : hidden_script_suspicious_fragments.any
      (fun f => strContains pl f) = true) :
    ∃ a, hiddenFragmentCheck rf t e p pl = some a ∧ a.severity = "HIGH" ∧
    (rf (strReplaceSlashes p) = none →
      a.details = some ("Hidden PowerShell -File from suspicious path detected: "
        ++ p ++ " (script unreadable)")) ∧
    (∀ c, rf (strReplaceSlashes p) = some c →
      strContains (strToLower c) "getasynckeystate" = true →
      a.details = some ("Script " ++ p ++ " contains indicator: "
        ++ "getasynckeystate")) := by
  simp only [hiddenFragmentCheck, hfrag, if_true]
  refine ⟨_, rfl, ?_, ?_, ?_⟩
  · cases hrf : rf (strReplaceSlashes p) with
    | none =>
      simp only [hrf]
      rfl
    | some content =>
      simp only [hrf]
      cases hfind : hidden_script_indicators_fragment.find?
          (fun ind => strContains (strToLower content) ind) <;>
        simp only [hfind] <;> rfl
  · intro h
    simp only [h]
  · intro c hc hcc
    have hfind : hidden_script_indicators_fragment.find?
        (fun ind => strContains (strToLower c) ind) =
          some "getasynckeystate" := by
      rw [show hidden_script_indicators_fragment = "getasynckeystate" ::
        ["add-type", "invoke-webrequest", "discord.com/api/webhooks",
         "send-todiscord"] from rfl]
      exact List.find?_cons_of_pos _ (by simpa using hcc)
    simp only [hc, hfind]

/-- C7.  Given a PowerShell process with a hidden-window flag and a `-file`
path token on a non-system drive or a suspicious path fragment, the
hidden-script rule returns a HIGH alert in both the readable and the
unreadable script cases: when the script can be read and contains the
`GetAsyncKeyState` indicator, the alert's details reference that indicator;
when the file cannot be read, the alert's details note the reduced
evidence (`(script unreadable)`).  The rule is a total function of the file
system, so a read error never propagates out of it. -/
theorem C7_hidden_script_rule_alerts_with_and_without_script
    (readFile : String → Option String) (time : String)
    (event : ProcessEvent) (p : String)
    (himg : (strEndsWith (strToLower event.image) "powershell.exe"
      || strEndsWith (strToLower event.image) "pwsh.exe") = true)
    (hhid : strContains (strToLower event.command_line)
      "-windowstyle hidden" = true)
    (htok : extractFileToken (strToLower event.command_line) = some p)
    (hpath : driveLetterNonC (strToLower p) = true ∨
      hidden_script_suspicious_fragments.any
        (fun f => strContains (strToLower p) f) = true) :
    ∃ a, detect_powershell_hidden_from_removable readFile time event =
        some a ∧
      a.severity = "HIGH" ∧
      (readFile (strReplaceSlashes p) = none →
        ∃ d, a.details = some d ∧
          strContains d "(script unreadable)" = true) ∧
      (∀ content, readFile (strReplaceSlashes p) = some content →
        strContains (strToLower content) "getasynckeystate" = true →
        ∃ d, a.details = some d ∧
          strContains d "getasynckeystate" = true) := by
  simp only [detect_powershell_hidden_from_removable, himg, hhid, htok,
    Bool.not_true, Bool.false_eq_true, if_false]
  by_cases hd : driveLetterNonC (strToLower p) = true
  · rcases hdata : (strToLower p).data with _ | ⟨c0, _ | ⟨c1, rest⟩⟩
    · rw [driveLetterNonC, hdata] at hd
      cases hd
    · rw [driveLetterNonC, hdata] at hd
      cases hd
    · rw [if_pos hd]
      obtain ⟨hsev, hunread, hind⟩ :=
        hiddenDriveAlert_spec readFile time event p c0.toLower
      refine ⟨_, rfl, hsev, ?_, ?_⟩
      · intro h
        exact ⟨_, hunread h, by
          apply strContains_append_right
          decide⟩
      · intro content hc hcc
        exact ⟨_, hind content hc hcc, by
          apply strContains_append_right
          decide⟩
  · rw [if_neg hd]
    have hfrag : hidden_script_suspicious_fragments.any
        (fun f => strContains (strToLower p) f) = true := by
      rcases hpath with h | h
      · exact absurd h hd
      · exact h
    obtain ⟨a, heq, hsev, hunread, hind⟩ :=
      hiddenFragmentCheck_spec readFile time event p (strToLower p) hfrag
    refine ⟨a, heq, hsev, ?_, ?_⟩
    · intro h
      exact ⟨_, hunread h, by
        apply strContains_append_right
        decide⟩
    · intro content hc hcc
      exact ⟨_, hind content hc hcc, by
        apply strContains_append_right
        decide⟩

/-- C7 witness: for `-WindowStyle Hidden -File D:\payload.ps1`, a readable
script containing `GetAsyncKeyState` yields a HIGH alert whose details
reference the indicator, and an unreadable file system still yields a HIGH
alert whose details note `(script unreadable)`. -/
theorem C7_witness_payload_ps1 :
    (∃ a, detect_powershell_hidden_from_removable fsWithKeyloggerScript "t"
        hiddenScriptEvent = some a ∧
      a.severity = "HIGH" ∧
      (fsWithKeyloggerScript (strReplaceSlashes "d:\\payload.ps1") = none →
        ∃ d, a.details = some d ∧
          strContains d "(script unreadable)" = true) ∧
      (∀ content, fsWithKeyloggerScript
          (strReplaceSlashes "d:\\payload.ps1") = some content →
        strContains (strToLower content) "getasynckeystate" = true →
        ∃ d, a.details = some d ∧
          strContains d "getasynckeystate" = true)) ∧
    (∃ a, detect_powershell_hidden_from_removable fsUnreadable "t"
        hiddenScriptEvent = some a ∧
      a.severity = "HIGH" ∧
      (fsUnreadable (strReplaceSlashes "d:\\payload.ps1") = none →
        ∃ d, a.details = some d ∧
          strContains d "(script unreadable)" = true) ∧
      (∀ content, fsUnreadable (strReplaceSlashes "d:\\payload.ps1") =
          some content →
        strContains (strToLower content) "getasynckeystate" = true →
        ∃ d, a.details = some d ∧
          strContains d "getasynckeystate" = true)) :=
  ⟨C7_hidden_script_rule_alerts_with_and_without_script fsWithKeyloggerScript
     "t" hiddenScriptEvent "d:\\payload.ps1" (by decide) (by decide)
     (by decide) (Or.inl (by decide)),
   C7_hidden_script_rule_alerts_with_and_without_script fsUnreadable "t"
     hiddenScriptEvent "d:\\payload.ps1" (by decide) (by decide) (by decide)
     (Or.inl (by decide))⟩
